import Mathlib

/-!
Formal model of the ProofLens backend (src/app.py).

The program keeps three pieces of shared state: a response cache
(`response_cache`, a dict from an md5 fingerprint of the prompt to the
downstream result text), a priority queue (`request_queue`, holding triples
`(priority, timestamp, task)` popped smallest-first), and the rate-governor
state (`last_request_time`, `current_delay`).

Time values (`time.time()`) are modelled as rationals and passed explicitly
to each operation.  The downstream call `model.generate_content` is an
external collaborator and is modelled as a parameter
`gen : String → Except String String` (success text, or the stringified
exception `str(e)`).  The fingerprint `hashlib.md5(...).hexdigest()` is an
external deterministic digest and is modelled as a parameter
`hashF : String → String`.  Floats `0.8` and `10.0` are the exact rationals
`4/5` and `10`.
-/

namespace ProofLens

/-- Python truthiness of an optional string field of the task dict:
`None` and the empty string are falsy, every other string is truthy.
This is the test used at `if task.get('result') or task.get('error')`
(src/app.py line 76) and at `if task['error']` (line 130). -/
def truthy : Option String → Bool
  | none => false
  | some s => s != ""

/-- Whether a character list starts with the three characters `429`. -/
def startsWith429 : List Char → Bool
  | '4' :: '2' :: '9' :: _ => true
  | _ => false

/-- Whether the three-character pattern `429` occurs somewhere in a
character list. -/
def has429L : List Char → Bool
  | [] => false
  | c :: rest => startsWith429 (c :: rest) || has429L rest

/-- Whether the text `"429"` occurs in a string: the check
`"429" in err_str` (src/app.py line 59). -/
def has429 (s : String) : Bool := has429L s.data

/-- A task dict as built in `analyze` (src/app.py lines 112-118):
`{'prompt': .., 'hash': .., 'event': .., 'result': None, 'error': None}`.
The `threading.Event` is modelled by a `Bool` (`true` = signal raised). -/
structure Task where
  prompt : String
  hash : String
  result : Option String
  error : Option String
  event : Bool
deriving DecidableEq

/-- An entry of `request_queue`: `(priority_number, timestamp, task_dict)`
(src/app.py line 20). -/
abbrev QItem := Int × ℚ × Task

/-- Strict comparison on the `(priority, timestamp)` part of a queue entry:
`PriorityQueue` pops the tuple-least entry, priority first, timestamp as
tie-break (src/app.py lines 33-34, 120). -/
def keyLt (a b : QItem) : Prop := a.1 < b.1 ∨ (a.1 = b.1 ∧ a.2.1 < b.2.1)

/-- Non-strict comparison on the `(priority, timestamp)` part of a queue
entry. -/
def keyLe (a b : QItem) : Prop := a.1 < b.1 ∨ (a.1 = b.1 ∧ a.2.1 ≤ b.2.1)

instance (a b : QItem) : Decidable (keyLt a b) := by
  unfold keyLt; infer_instance

instance (a b : QItem) : Decidable (keyLe a b) := by
  unfold keyLe; infer_instance

/-- Select the `(priority, timestamp)`-least entry out of a non-empty
collection of queue entries, returning it together with the remaining
entries.  This is the effect of `request_queue.get()` (src/app.py line 34). -/
def selMin : QItem → List QItem → QItem × List QItem
  | x, [] => (x, [])
  | x, y :: ys =>
    if keyLt y x then
      ((selMin y ys).1, x :: (selMin y ys).2)
    else
      ((selMin x ys).1, y :: (selMin x ys).2)

/-- Repeatedly popping the least entry, with an explicit fuel that the
caller sets to the length of the queue: the order in which the worker
loop removes the queued tasks. -/
def drainFuel : Nat → List QItem → List QItem
  | 0, _ => []
  | _ + 1, [] => []
  | n + 1, x :: xs => (selMin x xs).1 :: drainFuel n (selMin x xs).2

/-- The order in which the worker loop (`process_queue`) removes a given
multiset of queued tasks when no new tasks arrive. -/
def drain (qs : List QItem) : List QItem := drainFuel qs.length qs

/-- `request_queue.get(timeout=0.1)`: pop the least entry, or signal
`Empty` (`none`) when the queue holds nothing. -/
def takeMin (qs : List QItem) : Option (QItem × List QItem) :=
  match qs with
  | [] => none
  | x :: xs => some (selMin x xs)

/-- Shared mutable state of the program: `response_cache` (src/app.py
line 19, a dict modelled as an association list with newest binding
first), `request_queue` (line 22, kept in admission order; extraction
order is given by `selMin`), and the governor globals `last_request_time`
and `current_delay` (lines 23-24). -/
structure SysState where
  response_cache : List (String × String)
  request_queue : List QItem
  last_request_time : ℚ
  current_delay : ℚ
deriving DecidableEq

/-- Governor update on a successful resolution (src/app.py line 52):
`current_delay = max(0, current_delay * 0.8)`. -/
def onSuccess (d : ℚ) : ℚ := max 0 (d * (4 / 5))

/-- Governor update on a 429 quota signal (src/app.py line 62):
`current_delay = 10.0`. -/
def onQuota (_ : ℚ) : ℚ := 10

/-- The `finally` block of the worker body (src/app.py lines 75-77):
`if task.get('result') or task.get('error'): task['event'].set()`. -/
def finalize (t : Task) : Task :=
  if truthy t.result || truthy t.error then { t with event := true } else t

/-- Result of one worker iteration on one task.  Besides the new shared
state and the task dict after mutation, it records the governor sleep
applied before the call (`wait`, line 40), the one-time cooldown sleep
(`cooldown`, line 67), whether the task was put back on the queue
(`requeued`, line 68), and how many downstream calls were made
(`calls`, line 47). -/
structure StepOut where
  st : SysState
  task : Task
  wait : ℚ
  cooldown : ℚ
  requeued : Bool
  calls : Nat
deriving DecidableEq

/-- One iteration of the worker loop `process_queue` (src/app.py
lines 36-77) on a task already popped from the queue with its
`priority` (the popped timestamp is discarded by the code).  `now` is
`time.time()` at line 37, `tReq` at the re-queue `put` (line 68), `tFin`
in the `finally` block (line 74).  The `finally` block runs on every
path, including the re-queue path (where `continue` fires only after
it). -/
def processTask (gen : String → Except String String) (st : SysState)
    (priority : Int) (task : Task) (now tReq tFin : ℚ) : StepOut :=
  let elapsed := now - st.last_request_time
  let wait := if elapsed < st.current_delay then st.current_delay - elapsed else 0
  if task.prompt = "" then
    let task1 := finalize { task with error := some "Empty prompt" }
    let st1 := { st with current_delay := onSuccess st.current_delay, last_request_time := tFin }
    { st := st1, task := task1, wait := wait, cooldown := 0, requeued := false, calls := 0 }
  else
    match gen task.prompt with
    | Except.ok text =>
      let task1 := finalize { task with result := some text }
      let st1 := { st with response_cache := (task.hash, text) :: st.response_cache,
                           current_delay := onSuccess st.current_delay, last_request_time := tFin }
      { st := st1, task := task1, wait := wait, cooldown := 0, requeued := false, calls := 1 }
    | Except.error e =>
      if has429 e then
        let task1 := finalize task
        let st1 := { st with current_delay := onQuota st.current_delay,
                             request_queue := st.request_queue ++ [(priority, tReq, task1)],
                             last_request_time := tFin }
        { st := st1, task := task1, wait := wait, cooldown := 10, requeued := true, calls := 1 }
      else
        let task1 := finalize { task with error := some e }
        let st1 := { st with last_request_time := tFin }
        { st := st1, task := task1, wait := wait, cooldown := 0, requeued := false, calls := 1 }

/-- One full worker iteration: pop the least queue entry (or do nothing
when the queue is empty, the `Empty: continue` path) and process it. -/
def dispatchStep (gen : String → Except String String) (st : SysState)
    (now tReq tFin : ℚ) : Option StepOut :=
  match takeMin st.request_queue with
  | none => none
  | some (item, rest) =>
    some (processTask gen { st with request_queue := rest } item.1 item.2.2 now tReq tFin)

/-- The JSON body of a request to `/analyze`: `request.json` may lack the
`prompt` or `priority` keys.  An absent body (or a falsy empty dict) is
`none` at the call site. -/
structure ReqBody where
  prompt? : Option String
  priority? : Option Int
deriving DecidableEq

/-- Synchronous outcome of the admission part of the `analyze` handler:
400 bad input, a cache hit (`{"result": r, "cached": True}`), 503
overload, or a task admitted to the queue. -/
inductive AdmitResp where
  | badInput
  | hit (result : String)
  | overload
  | admitted
deriving DecidableEq

/-- Output of the admission part of `analyze`: the response (or the fact
that a task was admitted), the new shared state, and how many times the
fingerprint was computed (`hashlib.md5`, src/app.py line 102). -/
structure AdmitOut where
  resp : AdmitResp
  st : SysState
  hashes : Nat
deriving DecidableEq

/-- The admission part of the `analyze` handler (src/app.py lines 94-121):
reject a missing body or missing `prompt` key with 400; compute the
fingerprint; return a cache hit immediately; reject with 503 when
`request_queue.qsize() >= 20`; otherwise build the task dict and put
`(priority, time.time(), task)` on the queue.  `now` is the `time.time()`
used as the enqueue timestamp (line 121). -/
def analyze (hashF : String → String) (st : SysState)
    (body : Option ReqBody) (now : ℚ) : AdmitOut :=
  match body with
  | none => { resp := AdmitResp.badInput, st := st, hashes := 0 }
  | some data =>
    match data.prompt? with
    | none => { resp := AdmitResp.badInput, st := st, hashes := 0 }
    | some prompt =>
      let priority := data.priority?.getD 5
      let prompt_hash := hashF prompt
      match st.response_cache.lookup prompt_hash with
      | some r => { resp := AdmitResp.hit r, st := st, hashes := 1 }
      | none =>
        if 20 ≤ st.request_queue.length then
          { resp := AdmitResp.overload, st := st, hashes := 1 }
        else
          { resp := AdmitResp.admitted,
            st := { st with request_queue :=
              st.request_queue ++ [(priority, now,
                { prompt := prompt, hash := prompt_hash,
                  result := none, error := none, event := false })] },
            hashes := 1 }

/-- The final response of a producer: 504 timeout when the event was not
raised within the bound, an error response otherwise keyed on the
truthiness of `task['error']` (429 when the message contains "429", 500
otherwise), else the success response `{"result": .., "cached": False}`
(src/app.py lines 125-135). -/
inductive FinalResp where
  | timeout
  | failure (msg : String) (code : Nat)
  | success (result : String) (cached : Bool)
deriving DecidableEq

/-- The waiting part of the `analyze` handler: `is_done` is the value of
`event.wait(timeout=115)`. -/
def respond (is_done : Bool) (task : Task) : FinalResp :=
  if is_done then
    if truthy task.error then
      FinalResp.failure (task.error.getD "")
        (if has429 (task.error.getD "") then 429 else 500)
    else
      FinalResp.success (task.result.getD "") false
  else
    FinalResp.timeout

/-!
Helper lemmas: the `(priority, timestamp)` ordering of queue entries, the
extraction order of the queue, and the governor update functions.
-/

theorem keyLe_refl (a : QItem) : keyLe a a := Or.inr ⟨rfl, le_refl _⟩

theorem keyLt_keyLe {a b : QItem} (h : keyLt a b) : keyLe a b := by
  rcases h with h | ⟨e, h⟩
  · exact Or.inl h
  · exact Or.inr ⟨e, le_of_lt h⟩

theorem keyLe_trans {a b c : QItem} (h1 : keyLe a b) (h2 : keyLe b c) : keyLe a c := by
  rcases h1 with h1 | ⟨e1, h1⟩ <;> rcases h2 with h2 | ⟨e2, h2⟩
  · exact Or.inl (lt_trans h1 h2)
  · exact Or.inl (by rw [← e2]; exact h1)
  · exact Or.inl (by rw [e1]; exact h2)
  · exact Or.inr ⟨e1.trans e2, le_trans h1 h2⟩

theorem keyLe_of_not_keyLt {a b : QItem} (h : ¬ keyLt a b) : keyLe b a := by
  unfold keyLt at h
  push_neg at h
  rcases lt_or_eq_of_le h.1 with h1 | h1
  · exact Or.inl h1
  · exact Or.inr ⟨h1, h.2 h1.symm⟩

theorem selMin_length (x : QItem) (xs : List QItem) :
    (selMin x xs).2.length = xs.length := by
  induction xs generalizing x with
  | nil => rfl
  | cons y ys ih =>
    simp only [selMin]
    split
    · simp [ih]
    · simp [ih]

theorem selMin_perm (x : QItem) (xs : List QItem) :
    List.Perm ((selMin x xs).1 :: (selMin x xs).2) (x :: xs) := by
  induction xs generalizing x with
  | nil => exact List.Perm.refl _
  | cons y ys ih =>
    simp only [selMin]
    split
    · exact (List.Perm.swap x (selMin y ys).1 (selMin y ys).2).trans ((ih y).cons x)
    · exact ((List.Perm.swap y (selMin x ys).1 (selMin x ys).2).trans
        ((ih x).cons y)).trans (List.Perm.swap x y ys)

theorem selMin_min (x : QItem) (xs : List QItem) :
    ∀ z ∈ x :: xs, keyLe (selMin x xs).1 z := by
  induction xs generalizing x with
  | nil =>
    intro z hz
    rw [List.mem_singleton] at hz
    subst hz
    exact keyLe_refl _
  | cons y ys ih =>
    intro z hz
    simp only [selMin]
    split
    case isTrue h =>
      rcases List.mem_cons.mp hz with rfl | hz2
      · exact keyLe_trans (ih y y (List.mem_cons_self y ys)) (keyLt_keyLe h)
      · exact ih y z hz2
    case isFalse h =>
      rcases List.mem_cons.mp hz with rfl | hz2
      · exact ih z z (List.mem_cons_self z ys)
      · rcases List.mem_cons.mp hz2 with rfl | hz3
        · exact keyLe_trans (ih x x (List.mem_cons_self x ys)) (keyLe_of_not_keyLt h)
        · exact ih x z (List.mem_cons.mpr (Or.inr hz3))

theorem drainFuel_perm : ∀ (n : Nat) (qs : List QItem), qs.length ≤ n →
    List.Perm (drainFuel n qs) qs := by
  intro n
  induction n with
  | zero =>
    intro qs hq
    rw [List.length_eq_zero.mp (Nat.le_zero.mp hq)]
    exact List.Perm.refl _
  | succ n ih =>
    intro qs hq
    match qs with
    | [] => exact List.Perm.refl _
    | x :: xs =>
      have hlen : (selMin x xs).2.length ≤ n := by
        rw [selMin_length]
        simpa using hq
      exact ((ih _ hlen).cons _).trans (selMin_perm x xs)

theorem drainFuel_sorted : ∀ (n : Nat) (qs : List QItem), qs.length ≤ n →
    List.Sorted keyLe (drainFuel n qs) := by
  intro n
  induction n with
  | zero => intro qs hq; exact List.sorted_nil
  | succ n ih =>
    intro qs hq
    match qs with
    | [] => exact List.sorted_nil
    | x :: xs =>
      have hlen : (selMin x xs).2.length ≤ n := by
        rw [selMin_length]
        simpa using hq
      rw [show drainFuel (n + 1) (x :: xs)
            = (selMin x xs).1 :: drainFuel n (selMin x xs).2 from rfl]
      refine List.sorted_cons.mpr ⟨?_, ih _ hlen⟩
      intro b hb
      have hb2 : b ∈ (selMin x xs).2 := (drainFuel_perm n _ hlen).mem_iff.mp hb
      have hb3 : b ∈ x :: xs :=
        (selMin_perm x xs).mem_iff.mp (List.mem_cons.mpr (Or.inr hb2))
      exact selMin_min x xs b hb3

/-- Repeated extraction removes each queued task exactly once. -/
theorem drain_perm (qs : List QItem) : List.Perm (drain qs) qs :=
  drainFuel_perm _ _ le_rfl

/-- Repeated extraction yields the entries in non-decreasing
`(priority, timestamp)` order. -/
theorem drain_sorted (qs : List QItem) : List.Sorted keyLe (drain qs) :=
  drainFuel_sorted _ _ le_rfl

/-- An `if`-guarded sleep equals the `max` formula of the governor
contract. -/
theorem ite_wait_eq_max (d e : ℚ) : (if e < d then d - e else 0) = max 0 (d - e) := by
  split_ifs with h
  · exact (max_eq_right (by linarith)).symm
  · exact (max_eq_left (by linarith)).symm

/-- The governor delay stays within `[0, 10]` across any worker
iteration; together with the initial value `0` this makes the interval
bound used in `backoff_then_recovery` an invariant of the program. -/
theorem processTask_delay_bounds (gen : String → Except String String) (st : SysState)
    (priority : Int) (task : Task) (now tReq tFin : ℚ)
    (h0 : 0 ≤ st.current_delay) (h10 : st.current_delay ≤ 10) :
    0 ≤ (processTask gen st priority task now tReq tFin).st.current_delay
    ∧ (processTask gen st priority task now tReq tFin).st.current_delay ≤ 10 := by
  by_cases hp : task.prompt = ""
  · simp [processTask, hp, onSuccess]
    linarith
  · rcases hg : gen task.prompt with e | t
    · by_cases h4 : has429 e
      · simp [processTask, hp, hg, h4, onQuota]
      · simp [processTask, hp, hg, h4]
        exact ⟨h0, h10⟩
    · simp [processTask, hp, hg, onSuccess]
      linarith

/-- A positive governor delay stays positive under the success decay. -/
theorem onSuccess_pos {d : ℚ} (h : 0 < d) : 0 < onSuccess d := by
  unfold onSuccess
  have h2 : 0 < d * (4 / 5) := by positivity
  rw [max_eq_right (le_of_lt h2)]
  exact h2

/-- A positive governor delay strictly shrinks under the success decay. -/
theorem onSuccess_lt {d : ℚ} (h : 0 < d) : onSuccess d < d := by
  unfold onSuccess
  have h2 : 0 < d * (4 / 5) := by positivity
  rw [max_eq_right (le_of_lt h2)]
  linarith

/-!
Claim theorems.
-/

/-- C1: if a request with prompt `p` is admitted to an idle system, the
worker resolves it successfully writing the downstream result `r` into the
cache, and a second request with the identical prompt text then returns the
stored result byte-identical as a cache hit, leaving the whole shared state
(queue, governor, cache) exactly unchanged — so the second request is never
enqueued, never consults the governor, and triggers zero downstream calls. -/
theorem cached_second_request (hashF : String → String)
    (gen : String → Except String String) (st : SysState)
    (p r : String) (pr : Option Int) (t1 now tReq tFin t2 : ℚ)
    (hq : st.request_queue = [])
    (hmiss : st.response_cache.lookup (hashF p) = none)
    (hp : p ≠ "")
    (hgen : gen p = Except.ok r) :
    (analyze hashF st (some { prompt? := some p, priority? := pr }) t1).resp
      = AdmitResp.admitted
    ∧ dispatchStep gen (analyze hashF st (some { prompt? := some p, priority? := pr }) t1).st
        now tReq tFin
      = some (processTask gen st (pr.getD 5)
          { prompt := p, hash := hashF p, result := none, error := none, event := false }
          now tReq tFin)
    ∧ (processTask gen st (pr.getD 5)
          { prompt := p, hash := hashF p, result := none, error := none, event := false }
          now tReq tFin).st.response_cache.lookup (hashF p) = some r
    ∧ (analyze hashF (processTask gen st (pr.getD 5)
          { prompt := p, hash := hashF p, result := none, error := none, event := false }
          now tReq tFin).st (some { prompt? := some p, priority? := pr }) t2).resp
      = AdmitResp.hit r
    ∧ (analyze hashF (processTask gen st (pr.getD 5)
          { prompt := p, hash := hashF p, result := none, error := none, event := false }
          now tReq tFin).st (some { prompt? := some p, priority? := pr }) t2).st
      = (processTask gen st (pr.getD 5)
          { prompt := p, hash := hashF p, result := none, error := none, event := false }
          now tReq tFin).st := by
  have ha : analyze hashF st (some { prompt? := some p, priority? := pr }) t1
      = { resp := AdmitResp.admitted,
          st := { st with request_queue := st.request_queue ++ [(pr.getD 5, t1,
            { prompt := p, hash := hashF p, result := none, error := none, event := false })] },
          hashes := 1 } := by
    simp [analyze, hmiss, hq]
  have hcache : (processTask gen st (pr.getD 5)
      { prompt := p, hash := hashF p, result := none, error := none, event := false }
      now tReq tFin).st.response_cache.lookup (hashF p) = some r := by
    simp [processTask, hp, hgen, List.lookup]
  refine ⟨by rw [ha], ?_, hcache, ?_, ?_⟩
  · rw [ha]
    simp only [hq]
    simp [dispatchStep, takeMin, selMin]
    congr 1
    rw [← hq]
  · simp [analyze, hcache]
  · simp [analyze, hcache]

/-- C1 witness: concrete two-request run with prompt `"a"`, downstream
result `"b"`. -/
theorem cached_second_request_witness :
    (analyze (fun s => s) ⟨[], [], 0, 0⟩
        (some { prompt? := some "a", priority? := none }) 1).resp = AdmitResp.admitted
    ∧ dispatchStep (fun _ => Except.ok "b")
        (analyze (fun s => s) ⟨[], [], 0, 0⟩
          (some { prompt? := some "a", priority? := none }) 1).st 2 3 4
      = some (processTask (fun _ => Except.ok "b") ⟨[], [], 0, 0⟩ 5
          { prompt := "a", hash := "a", result := none, error := none, event := false } 2 3 4)
    ∧ (processTask (fun _ => Except.ok "b") ⟨[], [], 0, 0⟩ 5
        { prompt := "a", hash := "a", result := none, error := none, event := false }
        2 3 4).st.response_cache.lookup "a" = some "b"
    ∧ (analyze (fun s => s) (processTask (fun _ => Except.ok "b") ⟨[], [], 0, 0⟩ 5
        { prompt := "a", hash := "a", result := none, error := none, event := false }
        2 3 4).st (some { prompt? := some "a", priority? := none }) 5).resp = AdmitResp.hit "b"
    ∧ (analyze (fun s => s) (processTask (fun _ => Except.ok "b") ⟨[], [], 0, 0⟩ 5
        { prompt := "a", hash := "a", result := none, error := none, event := false }
        2 3 4).st (some { prompt? := some "a", priority? := none }) 5).st
      = (processTask (fun _ => Except.ok "b") ⟨[], [], 0, 0⟩ 5
        { prompt := "a", hash := "a", result := none, error := none, event := false } 2 3 4).st :=
  cached_second_request (fun s => s) (fun _ => Except.ok "b") ⟨[], [], 0, 0⟩
    "a" "b" none 1 2 3 4 5 rfl rfl (by decide) rfl

/-- C2: repeatedly popping the queue removes each admitted task exactly
once and yields them in non-decreasing `(priority, enqueue-timestamp)`
order, so equal-priority tasks come out in admission order; in the
concrete scenario with priorities `[5, 1, 5]` admitted at times
`1 < 2 < 3`, the dispatch order is the second task, then the first, then
the third. -/
theorem dispatch_priority_order :
    (∀ qs : List QItem, List.Perm (drain qs) qs ∧ List.Sorted keyLe (drain qs))
    ∧ drain
        [((5 : Int), (1 : ℚ),
            { prompt := "t1", hash := "h1", result := none, error := none, event := false }),
         ((1 : Int), (2 : ℚ),
            { prompt := "t2", hash := "h2", result := none, error := none, event := false }),
         ((5 : Int), (3 : ℚ),
            { prompt := "t3", hash := "h3", result := none, error := none, event := false })]
      = [((1 : Int), (2 : ℚ),
            { prompt := "t2", hash := "h2", result := none, error := none, event := false }),
         ((5 : Int), (1 : ℚ),
            { prompt := "t1", hash := "h1", result := none, error := none, event := false }),
         ((5 : Int), (3 : ℚ),
            { prompt := "t3", hash := "h3", result := none, error := none, event := false })] :=
  ⟨fun qs => ⟨drain_perm qs, drain_sorted qs⟩, by decide⟩

/-- C3 counterexample: with the queue already holding 15 pending tasks,
the next (16th) submission is admitted, not rejected with Overload — the
code's capacity bound is `request_queue.qsize() >= 20`, not 15. -/
theorem sixteenth_submission_admitted :
    (analyze (fun s => s)
      ⟨[], List.replicate 15 ((5 : Int), (0 : ℚ),
        { prompt := "q", hash := "q", result := none, error := none, event := false }), 0, 0⟩
      (some { prompt? := some "p", priority? := none }) 1).resp = AdmitResp.admitted := by
  decide

/-- C3 (amended): the configured capacity bound is 20: admission never
grows the queue beyond 20 pending tasks, and an admission attempt made
while the queue holds at least 20 tasks (valid prompt, cache miss) is
rejected with Overload leaving the state — so also the queue and hence
the Dispatcher's input — unchanged. -/
theorem queue_capacity_twenty (hashF : String → String) (st : SysState)
    (data : ReqBody) (prompt : String) (now : ℚ)
    (hp : data.prompt? = some prompt)
    (hmiss : st.response_cache.lookup (hashF prompt) = none) :
    (st.request_queue.length ≤ 20 →
      (analyze hashF st (some data) now).st.request_queue.length ≤ 20)
    ∧ (20 ≤ st.request_queue.length →
      (analyze hashF st (some data) now).resp = AdmitResp.overload
      ∧ (analyze hashF st (some data) now).st = st) := by
  constructor
  · intro hlen
    by_cases h20 : 20 ≤ st.request_queue.length
    · simp [analyze, hp, hmiss, h20]
      exact hlen
    · simp [analyze, hp, hmiss, h20]
      omega
  · intro h20
    simp [analyze, hp, hmiss, h20]

/-- C3 witness: with exactly 20 queued tasks the 21st submission is
rejected with Overload and the state is unchanged. -/
theorem queue_capacity_twenty_witness :
    (analyze (fun s => s)
        ⟨[], List.replicate 20 ((5 : Int), (0 : ℚ),
          { prompt := "q", hash := "q", result := none, error := none, event := false }), 0, 0⟩
        (some { prompt? := some "p", priority? := none }) 1).st.request_queue.length ≤ 20
    ∧ (analyze (fun s => s)
        ⟨[], List.replicate 20 ((5 : Int), (0 : ℚ),
          { prompt := "q", hash := "q", result := none, error := none, event := false }), 0, 0⟩
        (some { prompt? := some "p", priority? := none }) 1).resp = AdmitResp.overload
    ∧ (analyze (fun s => s)
        ⟨[], List.replicate 20 ((5 : Int), (0 : ℚ),
          { prompt := "q", hash := "q", result := none, error := none, event := false }), 0, 0⟩
        (some { prompt? := some "p", priority? := none }) 1).st
      = ⟨[], List.replicate 20 ((5 : Int), (0 : ℚ),
          { prompt := "q", hash := "q", result := none, error := none, event := false }), 0, 0⟩ := by
  have w := queue_capacity_twenty (fun s => s)
    ⟨[], List.replicate 20 ((5 : Int), (0 : ℚ),
      { prompt := "q", hash := "q", result := none, error := none, event := false }), 0, 0⟩
    { prompt? := some "p", priority? := none } "p" 1 rfl rfl
  exact ⟨w.1 (by decide), (w.2 (by decide)).1, (w.2 (by decide)).2⟩

/-- C4: on every worker iteration the governor sleep equals
`max(0, current_delay − (now − last_request_time))`; on a downstream
success the delay becomes `current_delay * 0.8` (given the invariant
`0 ≤ current_delay`, the `max(0, ·)` floor is inactive) with no cooldown;
on a 429 quota signal the delay is set to the fixed ceiling 10 and a
one-time cooldown sleep of 10 seconds is imposed before the task is put
back; on any other downstream failure the delay is left unchanged. -/
theorem governor_contract (gen : String → Except String String) (st : SysState)
    (priority : Int) (task : Task) (now tReq tFin : ℚ)
    (hd : 0 ≤ st.current_delay) :
    (processTask gen st priority task now tReq tFin).wait
      = max 0 (st.current_delay - (now - st.last_request_time))
    ∧ (∀ r, task.prompt ≠ "" → gen task.prompt = Except.ok r →
        (processTask gen st priority task now tReq tFin).st.current_delay
          = st.current_delay * (4 / 5)
        ∧ (processTask gen st priority task now tReq tFin).cooldown = 0)
    ∧ (∀ e, task.prompt ≠ "" → gen task.prompt = Except.error e → has429 e = true →
        (processTask gen st priority task now tReq tFin).st.current_delay = 10
        ∧ (processTask gen st priority task now tReq tFin).cooldown = 10
        ∧ (processTask gen st priority task now tReq tFin).requeued = true)
    ∧ (∀ e, task.prompt ≠ "" → gen task.prompt = Except.error e → has429 e = false →
        (processTask gen st priority task now tReq tFin).st.current_delay
          = st.current_delay
        ∧ (processTask gen st priority task now tReq tFin).cooldown = 0) := by
  refine ⟨?_, ?_, ?_, ?_⟩
  · by_cases hp : task.prompt = ""
    · simp [processTask, hp, ite_wait_eq_max]
    · rcases hg : gen task.prompt with e | t
      · by_cases h4 : has429 e
        · simp [processTask, hp, hg, h4, ite_wait_eq_max]
        · simp [processTask, hp, hg, h4, ite_wait_eq_max]
      · simp [processTask, hp, hg, ite_wait_eq_max]
  · intro r hp hg
    simp [processTask, hp, hg, onSuccess]
    exact hd
  · intro e hp hg h4
    simp [processTask, hp, hg, h4, onQuota]
  · intro e hp hg h4
    simp [processTask, hp, hg, h4]

/-- C4 witness: the three governor updates and the wait formula at
concrete inputs (delay 1, last dispatch 0, now 2). -/
theorem governor_contract_witness :
    (processTask (fun _ => Except.ok "r") ⟨[], [], 0, 1⟩ 5
      { prompt := "p", hash := "h", result := none, error := none, event := false }
      2 3 4).st.current_delay = 1 * (4 / 5)
    ∧ (processTask (fun _ => Except.error "HTTP 429 quota") ⟨[], [], 0, 1⟩ 5
      { prompt := "p", hash := "h", result := none, error := none, event := false }
      2 3 4).st.current_delay = 10
    ∧ (processTask (fun _ => Except.error "boom") ⟨[], [], 0, 1⟩ 5
      { prompt := "p", hash := "h", result := none, error := none, event := false }
      2 3 4).st.current_delay = 1
    ∧ (processTask (fun _ => Except.ok "r") ⟨[], [], 0, 1⟩ 5
      { prompt := "p", hash := "h", result := none, error := none, event := false }
      2 3 4).wait = max 0 (1 - (2 - 0)) := by
  refine ⟨?_, ?_, ?_, ?_⟩
  · exact ((governor_contract (fun _ => Except.ok "r") ⟨[], [], 0, 1⟩ 5
      { prompt := "p", hash := "h", result := none, error := none, event := false }
      2 3 4 (by norm_num)).2.1 "r" (by decide) rfl).1
  · exact ((governor_contract (fun _ => Except.error "HTTP 429 quota") ⟨[], [], 0, 1⟩ 5
      { prompt := "p", hash := "h", result := none, error := none, event := false }
      2 3 4 (by norm_num)).2.2.1 "HTTP 429 quota" (by decide) rfl (by decide)).1
  · exact ((governor_contract (fun _ => Except.error "boom") ⟨[], [], 0, 1⟩ 5
      { prompt := "p", hash := "h", result := none, error := none, event := false }
      2 3 4 (by norm_num)).2.2.2 "boom" (by decide) rfl (by decide)).1
  · exact (governor_contract (fun _ => Except.ok "r") ⟨[], [], 0, 1⟩ 5
      { prompt := "p", hash := "h", result := none, error := none, event := false }
      2 3 4 (by norm_num)).1

/-- C5: on a 429 quota signal for a pending task (result and error still
unset), the task is put back on the queue at its original priority with
the fresh timestamp taken at the re-queue `put` (the original enqueue
timestamp was discarded at `get`), the task dict itself is unchanged —
its outcome stays non-terminal and its completion event is not raised —
and a producer whose wait bound expires during this sees only the 504
timeout, never the quota failure. -/
theorem quota_requeue (gen : String → Except String String) (st : SysState)
    (priority : Int) (task : Task) (now tReq tFin : ℚ) (e : String)
    (hp : task.prompt ≠ "")
    (hgen : gen task.prompt = Except.error e)
    (h429 : has429 e = true)
    (hres : task.result = none) (herr : task.error = none) :
    (processTask gen st priority task now tReq tFin).requeued = true
    ∧ (processTask gen st priority task now tReq tFin).st.request_queue
      = st.request_queue ++ [(priority, tReq, task)]
    ∧ (processTask gen st priority task now tReq tFin).task = task
    ∧ (processTask gen st priority task now tReq tFin).task.event = task.event
    ∧ (processTask gen st priority task now tReq tFin).task.result = none
    ∧ (processTask gen st priority task now tReq tFin).task.error = none
    ∧ respond false (processTask gen st priority task now tReq tFin).task
      = FinalResp.timeout := by
  have hfin : finalize task = task := by
    simp [finalize, truthy, hres, herr]
  simp [processTask, hp, hgen, h429, hfin, respond, hres, herr]

/-- C5 witness: concrete 429 failure re-queues the task unchanged with
the fresh timestamp 2. -/
theorem quota_requeue_witness :
    (processTask (fun _ => Except.error "429") ⟨[], [], 0, 0⟩ 7
      { prompt := "p", hash := "h", result := none, error := none, event := false }
      1 2 3).requeued = true
    ∧ (processTask (fun _ => Except.error "429") ⟨[], [], 0, 0⟩ 7
      { prompt := "p", hash := "h", result := none, error := none, event := false }
      1 2 3).st.request_queue
      = [((7 : Int), (2 : ℚ),
          { prompt := "p", hash := "h", result := none, error := none, event := false })]
    ∧ (processTask (fun _ => Except.error "429") ⟨[], [], 0, 0⟩ 7
      { prompt := "p", hash := "h", result := none, error := none, event := false }
      1 2 3).task
      = { prompt := "p", hash := "h", result := none, error := none, event := false }
    ∧ (processTask (fun _ => Except.error "429") ⟨[], [], 0, 0⟩ 7
      { prompt := "p", hash := "h", result := none, error := none, event := false }
      1 2 3).task.event = false
    ∧ (processTask (fun _ => Except.error "429") ⟨[], [], 0, 0⟩ 7
      { prompt := "p", hash := "h", result := none, error := none, event := false }
      1 2 3).task.result = none
    ∧ (processTask (fun _ => Except.error "429") ⟨[], [], 0, 0⟩ 7
      { prompt := "p", hash := "h", result := none, error := none, event := false }
      1 2 3).task.error = none
    ∧ respond false (processTask (fun _ => Except.error "429") ⟨[], [], 0, 0⟩ 7
      { prompt := "p", hash := "h", result := none, error := none, event := false }
      1 2 3).task = FinalResp.timeout :=
  quota_requeue (fun _ => Except.error "429") ⟨[], [], 0, 0⟩ 7
    { prompt := "p", hash := "h", result := none, error := none, event := false }
    1 2 3 "429" (by decide) rfl (by decide) rfl rfl

/-- C6 counterexample: processing an empty-prompt task with governor
state `last_request_time = 0`, `current_delay = 10` changes both governor
fields (the delay decays to 8 and the last-dispatch timestamp is set in
the `finally` block), refuting the claim that the governor is untouched. -/
theorem empty_prompt_governor_changed :
    (processTask (fun _ => Except.ok "x") ⟨[], [], 0, 10⟩ 5
      { prompt := "", hash := "h", result := none, error := none, event := false }
      0 0 1).st.current_delay ≠ 10
    ∧ (processTask (fun _ => Except.ok "x") ⟨[], [], 0, 10⟩ 5
      { prompt := "", hash := "h", result := none, error := none, event := false }
      0 0 1).st.last_request_time ≠ 0 := by
  constructor
  · simp [processTask, onSuccess, finalize, truthy]
    rw [max_eq_right (by norm_num : (0:ℚ) ≤ 10 * (4 / 5))]
    norm_num
  · simp [processTask, finalize, truthy]

/-- C6 (amended): an empty-prompt task resolves to the InvalidInput
outcome (`error = "Empty prompt"`, event raised, not re-queued) with no
downstream call and the cache and queue untouched, but the governor is
not left unchanged: the `finally` block sets `last_request_time` to the
resolution time and the delay decays exactly as on a success. -/
theorem empty_prompt_resolution (gen : String → Except String String) (st : SysState)
    (priority : Int) (task : Task) (now tReq tFin : ℚ)
    (hp : task.prompt = "") :
    (processTask gen st priority task now tReq tFin).calls = 0
    ∧ (processTask gen st priority task now tReq tFin).task.error = some "Empty prompt"
    ∧ (processTask gen st priority task now tReq tFin).task.event = true
    ∧ (processTask gen st priority task now tReq tFin).requeued = false
    ∧ (processTask gen st priority task now tReq tFin).st.response_cache
      = st.response_cache
    ∧ (processTask gen st priority task now tReq tFin).st.request_queue
      = st.request_queue
    ∧ (processTask gen st priority task now tReq tFin).st.current_delay
      = onSuccess st.current_delay
    ∧ (processTask gen st priority task now tReq tFin).st.last_request_time = tFin := by
  simp [processTask, hp, finalize, truthy]

/-- C6 witness: concrete empty-prompt task processed at delay 10. -/
theorem empty_prompt_resolution_witness :
    (processTask (fun _ => Except.ok "x") ⟨[], [], 0, 10⟩ 5
      { prompt := "", hash := "h", result := none, error := none, event := false }
      0 0 1).calls = 0
    ∧ (processTask (fun _ => Except.ok "x") ⟨[], [], 0, 10⟩ 5
      { prompt := "", hash := "h", result := none, error := none, event := false }
      0 0 1).task.error = some "Empty prompt"
    ∧ (processTask (fun _ => Except.ok "x") ⟨[], [], 0, 10⟩ 5
      { prompt := "", hash := "h", result := none, error := none, event := false }
      0 0 1).task.event = true
    ∧ (processTask (fun _ => Except.ok "x") ⟨[], [], 0, 10⟩ 5
      { prompt := "", hash := "h", result := none, error := none, event := false }
      0 0 1).requeued = false
    ∧ (processTask (fun _ => Except.ok "x") ⟨[], [], 0, 10⟩ 5
      { prompt := "", hash := "h", result := none, error := none, event := false }
      0 0 1).st.response_cache = []
    ∧ (processTask (fun _ => Except.ok "x") ⟨[], [], 0, 10⟩ 5
      { prompt := "", hash := "h", result := none, error := none, event := false }
      0 0 1).st.request_queue = []
    ∧ (processTask (fun _ => Except.ok "x") ⟨[], [], 0, 10⟩ 5
      { prompt := "", hash := "h", result := none, error := none, event := false }
      0 0 1).st.current_delay = onSuccess 10
    ∧ (processTask (fun _ => Except.ok "x") ⟨[], [], 0, 10⟩ 5
      { prompt := "", hash := "h", result := none, error := none, event := false }
      0 0 1).st.last_request_time = 1 :=
  empty_prompt_resolution (fun _ => Except.ok "x") ⟨[], [], 0, 10⟩ 5
    { prompt := "", hash := "h", result := none, error := none, event := false }
    0 0 1 rfl

/-- C7 counterexample: a request whose prompt is the empty string — a
request that will resolve to InvalidInput — is not rejected before
admission: a Task is created and reaches the queue. -/
theorem empty_prompt_reaches_queue :
    (analyze (fun s => s) ⟨[], [], 0, 0⟩
      (some { prompt? := some "", priority? := none }) 1).resp = AdmitResp.admitted
    ∧ (analyze (fun s => s) ⟨[], [], 0, 0⟩
      (some { prompt? := some "", priority? := none }) 1).st.request_queue
      = [(5, 1, { prompt := "", hash := "", result := none, error := none, event := false })] := by
  decide

/-- C7 (amended): a request with an absent body or missing `prompt` key
is rejected with bad input, and a request arriving with the queue at
capacity (valid prompt, cache miss) is rejected with Overload — both
before any Task is created, leaving the state unchanged; however an
empty-string prompt passes admission: a Task for it is created and
queued, and it resolves to InvalidInput only when the worker processes
it. -/
theorem prequeue_rejection (hashF : String → String) (st : SysState) (now : ℚ) :
    ((analyze hashF st none now).resp = AdmitResp.badInput
      ∧ (analyze hashF st none now).st = st)
    ∧ (∀ pr, (analyze hashF st (some { prompt? := none, priority? := pr }) now).resp
        = AdmitResp.badInput
      ∧ (analyze hashF st (some { prompt? := none, priority? := pr }) now).st = st)
    ∧ (∀ prompt pr, st.response_cache.lookup (hashF prompt) = none →
        20 ≤ st.request_queue.length →
        (analyze hashF st (some { prompt? := some prompt, priority? := pr }) now).resp
          = AdmitResp.overload
        ∧ (analyze hashF st (some { prompt? := some prompt, priority? := pr }) now).st = st)
    ∧ (∀ pr, st.response_cache.lookup (hashF "") = none →
        st.request_queue.length < 20 →
        (analyze hashF st (some { prompt? := some "", priority? := pr }) now).resp
          = AdmitResp.admitted
        ∧ (analyze hashF st (some { prompt? := some "", priority? := pr }) now).st.request_queue
          = st.request_queue ++ [(pr.getD 5, now,
              { prompt := "", hash := hashF "", result := none, error := none, event := false })]) := by
  refine ⟨⟨rfl, rfl⟩, fun pr => ⟨rfl, rfl⟩, ?_, ?_⟩
  · intro prompt pr hmiss h20
    simp [analyze, hmiss, h20]
  · intro pr hmiss hlt
    have h20 : ¬ 20 ≤ st.request_queue.length := by omega
    simp [analyze, hmiss, h20]

/-- C7 witness: the three pre-queue rejections and the empty-prompt
admission at concrete states. -/
theorem prequeue_rejection_witness :
    (analyze (fun s => s) ⟨[], [], 0, 0⟩ none 1).resp = AdmitResp.badInput
    ∧ (analyze (fun s => s) ⟨[], [], 0, 0⟩
        (some { prompt? := none, priority? := none }) 1).resp = AdmitResp.badInput
    ∧ (analyze (fun s => s)
        ⟨[], List.replicate 20 ((5 : Int), (0 : ℚ),
          { prompt := "q", hash := "q", result := none, error := none, event := false }), 0, 0⟩
        (some { prompt? := some "p", priority? := none }) 1).resp = AdmitResp.overload
    ∧ (analyze (fun s => s) ⟨[], [], 0, 0⟩
        (some { prompt? := some "", priority? := none }) 1).resp = AdmitResp.admitted := by
  have w1 := prequeue_rejection (fun s => s) ⟨[], [], 0, 0⟩ 1
  have w2 := prequeue_rejection (fun s => s)
    ⟨[], List.replicate 20 ((5 : Int), (0 : ℚ),
      { prompt := "q", hash := "q", result := none, error := none, event := false }), 0, 0⟩ 1
  exact ⟨w1.1.1, (w1.2.1 none).1, (w2.2.2.1 "p" none rfl (by decide)).1,
    (w1.2.2.2 none rfl (by decide)).1⟩

/-- C8 code bug: when the downstream call succeeds but returns the empty
string, the worker iteration ends without re-queuing the task and with a
terminal outcome written (`result = some ""`), yet the completion event
is not raised — the `finally` block tests Python truthiness of
`task.get('result')`, and the empty string is falsy — contradicting the
code's own comment "Only signal if we didn't re-queue"; the producer then
waits out its full bound and reports a timeout. -/
theorem empty_result_unsignaled :
    (processTask (fun _ => Except.ok "") ⟨[], [], 0, 0⟩ 5
      { prompt := "x", hash := "h", result := none, error := none, event := false }
      0 0 1).requeued = false
    ∧ (processTask (fun _ => Except.ok "") ⟨[], [], 0, 0⟩ 5
      { prompt := "x", hash := "h", result := none, error := none, event := false }
      0 0 1).task.result = some ""
    ∧ (processTask (fun _ => Except.ok "") ⟨[], [], 0, 0⟩ 5
      { prompt := "x", hash := "h", result := none, error := none, event := false }
      0 0 1).task.error = none
    ∧ (processTask (fun _ => Except.ok "") ⟨[], [], 0, 0⟩ 5
      { prompt := "x", hash := "h", result := none, error := none, event := false }
      0 0 1).task.event = false
    ∧ (processTask (fun _ => Except.ok "") ⟨[], [], 0, 0⟩ 5
      { prompt := "x", hash := "h", result := none, error := none, event := false }
      0 0 1).st.request_queue = []
    ∧ respond false (processTask (fun _ => Except.ok "") ⟨[], [], 0, 0⟩ 5
      { prompt := "x", hash := "h", result := none, error := none, event := false }
      0 0 1).task = FinalResp.timeout := by
  simp [processTask, finalize, truthy, respond]

/-- C9: from any reachable delay `d ∈ [0, 10]` (see
`processTask_delay_bounds`), the quota backoff jumps to the ceiling 10,
which is at least the pre-signal delay; every subsequent success then
strictly decreases the delay while it stays strictly positive, and the
delay never drops below its floor of zero. -/
theorem backoff_then_recovery (d : ℚ) (_h0 : 0 ≤ d) (h10 : d ≤ 10) :
    d ≤ onQuota d
    ∧ (∀ k : ℕ, 0 < onSuccess^[k] (onQuota d))
    ∧ (∀ k : ℕ, onSuccess^[k + 1] (onQuota d) < onSuccess^[k] (onQuota d))
    ∧ (∀ k : ℕ, 0 ≤ onSuccess^[k] (onQuota d)) := by
  have hpos : ∀ k : ℕ, 0 < onSuccess^[k] (onQuota d) := by
    intro k
    induction k with
    | zero => norm_num [onQuota]
    | succ n ih =>
      rw [Function.iterate_succ_apply']
      exact onSuccess_pos ih
  refine ⟨by simpa [onQuota] using h10, hpos, ?_, fun k => le_of_lt (hpos k)⟩
  intro k
  rw [Function.iterate_succ_apply']
  exact onSuccess_lt (hpos k)

/-- C9 witness: instantiation at pre-signal delay 5 and three successes
after the quota signal. -/
theorem backoff_then_recovery_witness :
    (5 : ℚ) ≤ onQuota 5
    ∧ 0 < onSuccess^[3] (onQuota 5)
    ∧ onSuccess^[3 + 1] (onQuota 5) < onSuccess^[3] (onQuota 5)
    ∧ 0 ≤ onSuccess^[3] (onQuota 5) :=
  ⟨(backoff_then_recovery 5 (by norm_num) (by norm_num)).1,
   (backoff_then_recovery 5 (by norm_num) (by norm_num)).2.1 3,
   (backoff_then_recovery 5 (by norm_num) (by norm_num)).2.2.1 3,
   (backoff_then_recovery 5 (by norm_num) (by norm_num)).2.2.2 3⟩

/-- C10: a request with an absent body or a body lacking the `prompt` key
is answered with the bad-input error immediately: the cache, the queue
and both governor fields are exactly as before (the whole state is
unchanged) and the fingerprint is never computed. -/
theorem missing_prompt_no_effect (hashF : String → String) (st : SysState)
    (body : Option ReqBody) (now : ℚ) (pr : Option Int)
    (hb : body = none ∨ body = some { prompt? := none, priority? := pr }) :
    (analyze hashF st body now).resp = AdmitResp.badInput
    ∧ (analyze hashF st body now).st = st
    ∧ (analyze hashF st body now).hashes = 0 := by
  rcases hb with rfl | rfl
  · exact ⟨rfl, rfl, rfl⟩
  · exact ⟨rfl, rfl, rfl⟩

/-- C10 witness: absent body against a concrete state. -/
theorem missing_prompt_no_effect_witness :
    (analyze (fun s => s) ⟨[], [], 0, 0⟩ none 1).resp = AdmitResp.badInput
    ∧ (analyze (fun s => s) ⟨[], [], 0, 0⟩ none 1).st = ⟨[], [], 0, 0⟩
    ∧ (analyze (fun s => s) ⟨[], [], 0, 0⟩ none 1).hashes = 0 :=
  missing_prompt_no_effect (fun s => s) ⟨[], [], 0, 0⟩ none 1 none (Or.inl rfl)

end ProofLens
